import Mathlib

/-!
Verification of the MoneyFlow backend's joint-account core (the canonical
TypeScript routes: `src/routes/transactions.ts`, `src/routes/goals.ts`,
`src/routes/subscriptions.ts`, `src/routes/jointAccounts.ts`, the
`jointAccount` middleware and `services/pushService.ts`).

The MongoDB document store is modelled as lists of records; `findOne`
becomes `List.find?` (first match), `updateOne` becomes an update of the
first matching element, `deleteOne` erases the first matching element and
`deleteMany` filters.  Monetary amounts (JS numbers) are modelled as `Rat`,
timestamps as `Nat` (milliseconds), and document fields that the TS enums
serialize as strings (`role`, `status`, `type`) are modelled as `String`,
exactly as they sit in the schemaless store.  Each route handler becomes a
pure function returning the HTTP status, the error message (if any), the
store after the request and the list of `notifyJointAccountMembers`
fan-out calls it issued.
-/

/-- User document (collection `user`): only the fields the modelled routes
read.  `pushSubscription` is the serialized push descriptor, present or
absent. -/
structure UserDoc where
  id : String
  email : String
  name : String
  notificationsEnabled : Bool
  pushSubscription : Option String
  deriving DecidableEq, Repr

/-- Joint account document (collection `jointAccounts`). -/
structure JointAccount where
  id : String
  name : String
  primaryCurrency : String
  adminUserId : String
  createdAt : Nat
  updatedAt : Nat
  deriving DecidableEq, Repr

/-- Membership edge (collection `jointAccountMembers`).  The code only ever
writes `role := "ADMIN"` or `role := "MEMBER"`, but the store itself is
schemaless, so `role` is a string. -/
structure JointAccountMember where
  id : String
  jointAccountId : String
  userId : String
  role : String
  joinedAt : Nat
  deriving DecidableEq, Repr

/-- Invite document (collection `jointAccountInvites`); `status` is one of
"PENDING", "ACCEPTED", "DECLINED". -/
structure JointAccountInvite where
  id : String
  jointAccountId : String
  invitedEmail : String
  invitedByUserId : String
  status : String
  createdAt : Nat
  expiresAt : Nat
  deriving DecidableEq, Repr

/-- Transaction document (collection `transactions`). -/
structure Transaction where
  id : String
  jointAccountId : String
  amount : Rat
  currency : String
  ttype : String
  category : String
  date : String
  note : Option String
  addedByUserId : String
  addedByUserName : String
  createdAt : Nat
  updatedAt : Nat
  deriving DecidableEq, Repr

/-- Goal document (collection `goals`). -/
structure GoalDoc where
  id : String
  jointAccountId : String
  name : String
  targetAmount : Rat
  currentAmount : Rat
  currency : String
  deadline : Option String
  createdAt : Nat
  updatedAt : Nat
  deriving DecidableEq, Repr

/-- Subscription document (collection `subscriptions`). -/
structure SubscriptionDoc where
  id : String
  jointAccountId : String
  name : String
  amount : Rat
  currency : String
  cycle : String
  nextBillingDate : String
  createdAt : Nat
  updatedAt : Nat
  deriving DecidableEq, Repr

/-- The document store: one list per collection, in insertion order
(Mongo's natural order, which `findOne` and `updateOne`/`deleteOne` scan
first-to-last). -/
structure Db where
  users : List UserDoc
  jointAccounts : List JointAccount
  members : List JointAccountMember
  invites : List JointAccountInvite
  transactions : List Transaction
  goals : List GoalDoc
  subscriptions : List SubscriptionDoc
  deriving DecidableEq, Repr

/-- One call to `notifyJointAccountMembers(jointAccountId, excludeUserId,
payload)`; of the payload we keep the `tag` and the `data.type`
discriminator, which identify which notification was sent. -/
structure PushCall where
  jointAccountId : String
  excludeUserId : String
  tag : String
  dataType : String
  deriving DecidableEq, Repr

/-- Result of one route handler: HTTP status, the `error` string of the
JSON body (`none` on success), the store after the request, and the
fan-out calls issued. -/
structure ApiRes where
  status : Nat
  error : Option String
  db : Db
  pushes : List PushCall
  deriving DecidableEq, Repr

/-- Error response: every failing branch returns the store unchanged and
issues no fan-out. -/
def errRes (s : Db) (status : Nat) (msg : String) : ApiRes :=
  ⟨status, some msg, s, []⟩

/-- The 403 produced when the acting user has no membership row (both the
middleware and the inline route checks use this exact message). -/
def notMemberRes (s : Db) : ApiRes :=
  errRes s 403 "You are not a member of this joint account"

/-- The repeated query
`db.collection('jointAccountMembers').findOne({ jointAccountId, userId })`. -/
def findMembership (s : Db) (jointAccountId userId : String) :
    Option JointAccountMember :=
  s.members.find? fun m =>
    m.jointAccountId == jointAccountId && m.userId == userId

/-- Mongo `updateOne`: rewrite the first element matching `q` with `f`. -/
def updateFirst (q : α → Bool) (f : α → α) : List α → List α
  | [] => []
  | x :: xs => if q x then f x :: xs else x :: updateFirst q f xs

/-- The `requireJointAccountAdmin` middleware: `none` means the request
may proceed; `some (status, msg)` is the rejection. -/
def requireAdminCheck (s : Db) (jointAccountId userId : String) :
    Option (Nat × String) :=
  match findMembership s jointAccountId userId with
  | none => some (403, "You are not a member of this joint account")
  | some m =>
    if m.role != "ADMIN" then some (403, "Only admins can perform this action")
    else none

/-- POST /api/transactions (createTransactionRoutes).  `newId` stands for
`crypto.randomUUID()`, `today` for `now.toISOString().split('T')[0]`.  The
JS truthiness test `!jointAccountId || !amount || !type || !category`
becomes emptiness / zero tests on the modelled field types. -/
def createTransaction (s : Db) (userId userName : String)
    (jointAccountId : String) (amount : Rat) (currency ttype category date : String)
    (note : Option String) (newId today : String) (now : Nat) : ApiRes :=
  if jointAccountId = "" ∨ amount = 0 ∨ ttype = "" ∨ category = "" then
    errRes s 400 "Missing required fields: jointAccountId, amount, type, category"
  else
    match findMembership s jointAccountId userId with
    | none => notMemberRes s
    | some _ =>
      let t : Transaction :=
        { id := newId, jointAccountId, amount
          currency := if currency = "" then "USD" else currency
          ttype, category
          date := if date = "" then today else date
          note, addedByUserId := userId, addedByUserName := userName
          createdAt := now, updatedAt := now }
      { status := 201, error := none
        db := { s with transactions := s.transactions ++ [t] }
        pushes := [{ jointAccountId, excludeUserId := userId
                     tag := "transaction-" ++ newId, dataType := "transaction" }] }

/-- Field-wise application of the PUT /:transactionId `$set` document:
`amount`/`note` are set when present (`!== undefined`), the string fields
only when truthy. -/
def applyTxnUpdate (t : Transaction) (amount? : Option Rat)
    (currency? ttype? category? date? : Option String)
    (note? : Option (Option String)) (now : Nat) : Transaction :=
  { t with
    updatedAt := now
    amount := amount?.getD t.amount
    currency := match currency? with
      | some c => if c = "" then t.currency else c
      | none => t.currency
    ttype := match ttype? with
      | some c => if c = "" then t.ttype else c
      | none => t.ttype
    category := match category? with
      | some c => if c = "" then t.category else c
      | none => t.category
    date := match date? with
      | some c => if c = "" then t.date else c
      | none => t.date
    note := note?.getD t.note }

/-- PUT /api/transactions/:transactionId. -/
def updateTransaction (s : Db) (transactionId userId : String)
    (amount? : Option Rat) (currency? ttype? category? date? : Option String)
    (note? : Option (Option String)) (now : Nat) : ApiRes :=
  match s.transactions.find? (fun t => t.id == transactionId) with
  | none => errRes s 404 "Transaction not found"
  | some t =>
    match findMembership s t.jointAccountId userId with
    | none => notMemberRes s
    | some _ =>
      let txns := updateFirst (fun x => x.id == transactionId)
        (fun x => applyTxnUpdate x amount? currency? ttype? category? date? note? now)
        s.transactions
      { status := 200, error := none, db := { s with transactions := txns }
        pushes := [] }

/-- DELETE /api/transactions/:transactionId. -/
def deleteTransaction (s : Db) (transactionId userId : String) : ApiRes :=
  match s.transactions.find? (fun t => t.id == transactionId) with
  | none => errRes s 404 "Transaction not found"
  | some t =>
    match findMembership s t.jointAccountId userId with
    | none => notMemberRes s
    | some _ =>
      let txns := s.transactions.eraseP (fun x => x.id == transactionId)
      { status := 200, error := none, db := { s with transactions := txns }
        pushes := [] }

/-- POST /api/transactions/bulk-delete.  The body must carry an array and a
truthy `jointAccountId` (an empty array is truthy in JS and passes); the
`deleteMany` filter requires both the id to be listed and the transaction
to belong to the stated account. -/
def bulkDeleteTransactions (s : Db) (userId : String)
    (transactionIds : List String) (jointAccountId : String) : ApiRes :=
  if jointAccountId = "" then
    errRes s 400 "transactionIds array and jointAccountId are required"
  else
    match findMembership s jointAccountId userId with
    | none => notMemberRes s
    | some _ =>
      let txns := s.transactions.filter
        (fun t => !(transactionIds.contains t.id && t.jointAccountId == jointAccountId))
      { status := 200, error := none, db := { s with transactions := txns }
        pushes := [] }

/-- POST /api/goals (createGoalRoutes).  The JS validation is
`!jointAccountId || !name || !targetAmount`: a zero target is falsy and
rejected as a missing field, while a negative target passes.
`currentAmount` defaults to 0 and is not validated at all. -/
def createGoal (s : Db) (userId : String) (jointAccountId name : String)
    (targetAmount currentAmount : Rat) (currency : String)
    (deadline : Option String) (newId : String) (now : Nat) : ApiRes :=
  if jointAccountId = "" ∨ name = "" ∨ targetAmount = 0 then
    errRes s 400 "Missing required fields: jointAccountId, name, targetAmount"
  else
    match findMembership s jointAccountId userId with
    | none => notMemberRes s
    | some _ =>
      let g : GoalDoc :=
        { id := newId, jointAccountId, name, targetAmount, currentAmount
          currency := if currency = "" then "USD" else currency
          deadline, createdAt := now, updatedAt := now }
      { status := 201, error := none
        db := { s with goals := s.goals ++ [g] }
        pushes := [{ jointAccountId, excludeUserId := userId
                     tag := "goal-created-" ++ newId, dataType := "goal" }] }

/-- Field-wise application of the PUT /:goalId `$set` document:
`name`/`deadline` when present, the amounts when present (zero and
negative values are accepted), `currency` only when truthy. -/
def applyGoalUpdate (g : GoalDoc) (name? : Option String)
    (targetAmount? currentAmount? : Option Rat) (currency? : Option String)
    (deadline? : Option (Option String)) (now : Nat) : GoalDoc :=
  { g with
    updatedAt := now
    name := name?.getD g.name
    targetAmount := targetAmount?.getD g.targetAmount
    currentAmount := currentAmount?.getD g.currentAmount
    currency := match currency? with
      | some c => if c = "" then g.currency else c
      | none => g.currency
    deadline := deadline?.getD g.deadline }

/-- PUT /api/goals/:goalId, including the milestone fan-out: when the body
carried a `currentAmount`, the handler compares
`oldProgress = old.currentAmount / old.targetAmount * 100` against
`newProgress` recomputed from the updated document; reaching 100% from
below emits the distinct achieved notification, otherwise strictly
increased progress crossing a 25%-floor boundary emits one milestone
notification. -/
def updateGoal (s : Db) (goalId userId : String) (name? : Option String)
    (targetAmount? currentAmount? : Option Rat) (currency? : Option String)
    (deadline? : Option (Option String)) (now : Nat) : ApiRes :=
  match s.goals.find? (fun g => g.id == goalId) with
  | none => errRes s 404 "Goal not found"
  | some g =>
    match findMembership s g.jointAccountId userId with
    | none => notMemberRes s
    | some _ =>
      let updated := applyGoalUpdate g name? targetAmount? currentAmount? currency? deadline? now
      let goals' := updateFirst (fun x => x.id == goalId)
        (fun x => applyGoalUpdate x name? targetAmount? currentAmount? currency? deadline? now)
        s.goals
      let pushes : List PushCall :=
        match currentAmount? with
        | none => []
        | some _ =>
          let oldProgress := g.currentAmount / g.targetAmount * 100
          let newProgress := updated.currentAmount / updated.targetAmount * 100
          if 100 ≤ newProgress ∧ oldProgress < 100 then
            [{ jointAccountId := g.jointAccountId, excludeUserId := userId
               tag := "goal-achieved-" ++ g.id, dataType := "goal-achieved" }]
          else if oldProgress < newProgress ∧ ⌊oldProgress / 25⌋ < ⌊newProgress / 25⌋ then
            [{ jointAccountId := g.jointAccountId, excludeUserId := userId
               tag := "goal-progress-" ++ g.id, dataType := "goal-progress" }]
          else []
      { status := 200, error := none, db := { s with goals := goals' }, pushes }

/-- DELETE /api/goals/:goalId. -/
def deleteGoal (s : Db) (goalId userId : String) : ApiRes :=
  match s.goals.find? (fun g => g.id == goalId) with
  | none => errRes s 404 "Goal not found"
  | some g =>
    match findMembership s g.jointAccountId userId with
    | none => notMemberRes s
    | some _ =>
      let goals' := s.goals.eraseP (fun x => x.id == goalId)
      { status := 200, error := none, db := { s with goals := goals' }, pushes := [] }

/-- POST /api/subscriptions.  Validation is
`!jointAccountId || !name || !amount || !cycle`: zero amount is falsy and
rejected as missing, negative amounts pass. -/
def createSubscription (s : Db) (userId : String) (jointAccountId name : String)
    (amount : Rat) (currency cycle nextBillingDate : String)
    (newId today : String) (now : Nat) : ApiRes :=
  if jointAccountId = "" ∨ name = "" ∨ amount = 0 ∨ cycle = "" then
    errRes s 400 "Missing required fields: jointAccountId, name, amount, cycle"
  else
    match findMembership s jointAccountId userId with
    | none => notMemberRes s
    | some _ =>
      let sub : SubscriptionDoc :=
        { id := newId, jointAccountId, name, amount
          currency := if currency = "" then "USD" else currency
          cycle
          nextBillingDate := if nextBillingDate = "" then today else nextBillingDate
          createdAt := now, updatedAt := now }
      { status := 201, error := none
        db := { s with subscriptions := s.subscriptions ++ [sub] }
        pushes := [] }

/-- Field-wise application of the PUT /:subscriptionId `$set` document. -/
def applySubUpdate (x : SubscriptionDoc) (name? : Option String)
    (amount? : Option Rat) (currency? cycle? nextBillingDate? : Option String)
    (now : Nat) : SubscriptionDoc :=
  { x with
    updatedAt := now
    name := name?.getD x.name
    amount := amount?.getD x.amount
    currency := match currency? with
      | some c => if c = "" then x.currency else c
      | none => x.currency
    cycle := match cycle? with
      | some c => if c = "" then x.cycle else c
      | none => x.cycle
    nextBillingDate := match nextBillingDate? with
      | some c => if c = "" then x.nextBillingDate else c
      | none => x.nextBillingDate }

/-- PUT /api/subscriptions/:subscriptionId. -/
def updateSubscription (s : Db) (subscriptionId userId : String)
    (name? : Option String) (amount? : Option Rat)
    (currency? cycle? nextBillingDate? : Option String) (now : Nat) : ApiRes :=
  match s.subscriptions.find? (fun x => x.id == subscriptionId) with
  | none => errRes s 404 "Subscription not found"
  | some sub =>
    match findMembership s sub.jointAccountId userId with
    | none => notMemberRes s
    | some _ =>
      let subs := updateFirst (fun x => x.id == subscriptionId)
        (fun x => applySubUpdate x name? amount? currency? cycle? nextBillingDate? now)
        s.subscriptions
      { status := 200, error := none, db := { s with subscriptions := subs }
        pushes := [] }

/-- DELETE /api/subscriptions/:subscriptionId. -/
def deleteSubscription (s : Db) (subscriptionId userId : String) : ApiRes :=
  match s.subscriptions.find? (fun x => x.id == subscriptionId) with
  | none => errRes s 404 "Subscription not found"
  | some sub =>
    match findMembership s sub.jointAccountId userId with
    | none => notMemberRes s
    | some _ =>
      let subs := s.subscriptions.eraseP (fun x => x.id == subscriptionId)
      { status := 200, error := none, db := { s with subscriptions := subs }
        pushes := [] }

/-- POST /api/joint-accounts: creates the account document and one ADMIN
membership row for the creator.  `accountId` and `membershipId` stand for
the two `crypto.randomUUID()` calls. -/
def createJointAccount (s : Db) (userId name primaryCurrency : String)
    (accountId membershipId : String) (now : Nat) : ApiRes :=
  if name = "" then errRes s 400 "Account name is required"
  else
    let acct : JointAccount :=
      { id := accountId, name, primaryCurrency, adminUserId := userId
        createdAt := now, updatedAt := now }
    let mem : JointAccountMember :=
      { id := membershipId, jointAccountId := accountId, userId
        role := "ADMIN", joinedAt := now }
    { status := 201, error := none
      db := { s with jointAccounts := s.jointAccounts ++ [acct]
                     members := s.members ++ [mem] }
      pushes := [] }

/-- JS `String.prototype.toLowerCase()` on the modelled (ASCII) emails. -/
def lowerString (x : String) : String := ⟨x.data.map Char.toLower⟩

/-- The duplicate-invite query key: same account, same lowercased email,
status PENDING. -/
def pendingMatch (jointAccountId email : String) (i : JointAccountInvite) : Bool :=
  i.jointAccountId == jointAccountId && i.invitedEmail == email && i.status == "PENDING"

/-- The already-a-member pre-check of the invite route: look the invitee
up by raw (non-lowercased) email and, when a user exists, check for a
membership row. -/
def inviteeAlreadyMember (s : Db) (jointAccountId email : String) : Bool :=
  match s.users.find? (fun u => u.email == email) with
  | some u => (findMembership s jointAccountId u.id).isSome
  | none => false

/-- POST /api/joint-accounts/:jointAccountId/invite (behind
`requireJointAccountAdmin`).  The already-a-member lookup uses the raw
email, the duplicate-pending lookup and the stored `invitedEmail` use the
lowercased one; `expiresAt` is seven days from `now` in milliseconds. -/
def inviteMember (s : Db) (jointAccountId inviterId email : String)
    (newInviteId : String) (now : Nat) : ApiRes :=
  match requireAdminCheck s jointAccountId inviterId with
  | some e => errRes s e.1 e.2
  | none =>
    if email = "" then errRes s 400 "Email is required"
    else
      if inviteeAlreadyMember s jointAccountId email then
        errRes s 400 "User is already a member"
      else
        match s.invites.find? (pendingMatch jointAccountId (lowerString email)) with
        | some _ => errRes s 400 "Invitation already pending"
        | none =>
          let inv : JointAccountInvite :=
            { id := newInviteId, jointAccountId
              invitedEmail := lowerString email, invitedByUserId := inviterId
              status := "PENDING", createdAt := now
              expiresAt := now + 7 * 24 * 60 * 60 * 1000 }
          { status := 201, error := none
            db := { s with invites := s.invites ++ [inv] }
            pushes := [] }

/-- POST /api/joint-accounts/invites/:inviteId/respond.  `email` is the
requesting user's email (the handler lowercases it); the checks run in
source order: not found, wrong addressee, already responded, expired.  On
accept the invite is set to ACCEPTED and one MEMBER row is inserted; on
decline only the status changes. -/
def respondInvite (s : Db) (inviteId : String) (accept : Bool)
    (userId email : String) (newMembershipId : String) (now : Nat) : ApiRes :=
  match s.invites.find? (fun i => i.id == inviteId) with
  | none => errRes s 404 "Invitation not found"
  | some inv =>
    if inv.invitedEmail ≠ lowerString email then
      errRes s 403 "This invitation is not for you"
    else if inv.status ≠ "PENDING" then
      errRes s 400 "Invitation already responded to"
    else if inv.expiresAt < now then
      errRes s 400 "Invitation has expired"
    else
      let newStatus := if accept then "ACCEPTED" else "DECLINED"
      let invites' := updateFirst (fun i => i.id == inviteId)
        (fun i => { i with status := newStatus }) s.invites
      if accept then
        let m : JointAccountMember :=
          { id := newMembershipId, jointAccountId := inv.jointAccountId
            userId, role := "MEMBER", joinedAt := now }
        { status := 200, error := none
          db := { s with invites := invites', members := s.members ++ [m] }
          pushes := [] }
      else
        { status := 200, error := none
          db := { s with invites := invites' }, pushes := [] }

/-- The member-to-remove resolution of
DELETE /:jointAccountId/members/:memberId: first by membership id, then by
user id, always scoped to the account. -/
def memberTarget (s : Db) (jointAccountId memberId : String) :
    Option JointAccountMember :=
  match s.members.find? (fun m => m.id == memberId && m.jointAccountId == jointAccountId) with
  | some m => some m
  | none => s.members.find? (fun m => m.userId == memberId && m.jointAccountId == jointAccountId)

/-- DELETE /api/joint-accounts/:jointAccountId/members/:memberId (no
membership middleware; only the session).  The admin may remove anyone but
themself, a non-admin only themself; the admin removing themself is the
distinct 400. -/
def removeMember (s : Db) (jointAccountId memberId userId : String) : ApiRes :=
  match memberTarget s jointAccountId memberId with
  | none => errRes s 404 "Member not found"
  | some m =>
    match s.jointAccounts.find? (fun a => a.id == jointAccountId) with
    | none => errRes s 404 "Account not found"
    | some acct =>
      let isAdmin := acct.adminUserId == userId
      let isSelf := m.userId == userId
      if !isAdmin && !isSelf then
        errRes s 403 "You do not have permission to remove this member"
      else if isAdmin && isSelf then
        errRes s 400 "Admin cannot leave their own account. Transfer ownership or delete the account instead."
      else
        let members' := s.members.eraseP (fun x => x.id == m.id)
        { status := 200, error := none, db := { s with members := members' }
          pushes := [] }

/-- DELETE /api/joint-accounts/:jointAccountId (behind
`requireJointAccountAdmin`): cascades to the account's memberships and
invites, then removes the account document. -/
def deleteJointAccount (s : Db) (jointAccountId userId : String) : ApiRes :=
  match requireAdminCheck s jointAccountId userId with
  | some e => errRes s e.1 e.2
  | none =>
    let members' := s.members.filter (fun m => !(m.jointAccountId == jointAccountId))
    let invites' := s.invites.filter (fun i => !(i.jointAccountId == jointAccountId))
    let accounts' := s.jointAccounts.eraseP (fun a => a.id == jointAccountId)
    { status := 200, error := none
      db := { s with members := members', invites := invites'
                     jointAccounts := accounts' }
      pushes := [] }

/-- DELETE /api/joint-accounts/:jointAccountId/invites/:inviteId (behind
`requireJointAccountAdmin`): `deleteOne` scoped to the account; 404 when
nothing matched. -/
def cancelInvite (s : Db) (jointAccountId inviteId userId : String) : ApiRes :=
  match requireAdminCheck s jointAccountId userId with
  | some e => errRes s e.1 e.2
  | none =>
    if (s.invites.find? (fun i => i.id == inviteId && i.jointAccountId == jointAccountId)).isSome then
      let invites' := s.invites.eraseP (fun i => i.id == inviteId && i.jointAccountId == jointAccountId)
      { status := 200, error := none, db := { s with invites := invites' }
        pushes := [] }
    else errRes s 404 "Invitation not found"

/-- The membership scan of `notifyJointAccountMembers`: every member of
the account except the acting user, in store order. -/
def notifyTargets (s : Db) (jointAccountId excludeUserId : String) : List String :=
  ((s.members.filter (fun m => m.jointAccountId == jointAccountId)).filter
    (fun m => !(m.userId == excludeUserId))).map (fun m => m.userId)

/-- The users `notifyJointAccountMembers` actually attempts a push send
for: among the targets, those whose user document has
`notificationsEnabled: true` and a stored `pushSubscription`. -/
def pushAttemptUsers (s : Db) (jointAccountId excludeUserId : String) : List String :=
  let userIds := notifyTargets s jointAccountId excludeUserId
  (s.users.filter (fun u =>
    userIds.contains u.id && u.notificationsEnabled && u.pushSubscription.isSome)).map
    (fun u => u.id)

/-- Concrete store fixtures for evaluating the routes on explicit inputs:
a "Rent" account `a` administered by `u1` (Alice, notifications on, push
subscription stored) with member `u2` (Bob, notifications off), a goal at
30 of 100, one transaction in account `a` and one in a foreign account
`b`, plus two pending invites. -/
def alice : UserDoc := ⟨"u1", "alice@x.com", "Alice", true, some "sub1"⟩

def bob : UserDoc := ⟨"u2", "bob@x.com", "Bob", false, none⟩

def rentAccount : JointAccount := ⟨"a", "Rent", "USD", "u1", 0, 0⟩

def aliceAdminRow : JointAccountMember := ⟨"m1", "a", "u1", "ADMIN", 0⟩

def bobMemberRow : JointAccountMember := ⟨"m2", "a", "u2", "MEMBER", 0⟩

def carolViewerRow : JointAccountMember := ⟨"m3", "a", "u3", "VIEWER", 0⟩

def tripGoal : GoalDoc := ⟨"g1", "a", "Trip", 100, 30, "USD", none, 0, 0⟩

def foodTxn : Transaction :=
  ⟨"t1", "a", 10, "USD", "EXPENSE", "Food", "2026-01-01", none, "u1", "Alice", 0, 0⟩

def otherTxn : Transaction :=
  ⟨"t2", "b", 10, "USD", "EXPENSE", "Food", "2026-01-01", none, "u3", "Carol", 0, 0⟩

def bobInvite : JointAccountInvite := ⟨"i1", "a", "bob@x.com", "u1", "PENDING", 0, 100⟩

def daveInvite : JointAccountInvite := ⟨"i2", "a", "dave@x.com", "u1", "PENDING", 0, 100⟩

def baseDb : Db :=
  ⟨[alice, bob], [rentAccount], [aliceAdminRow, bobMemberRow],
   [bobInvite, daveInvite], [foodTxn, otherTxn], [tripGoal], []⟩

/-- The base store extended with a member row whose stored `role` is the
string "VIEWER" (the schemaless store accepts it even though the canonical
enum only has ADMIN and MEMBER). -/
def viewerDb : Db := { baseDb with members := baseDb.members ++ [carolViewerRow] }

/-- Membership rows of an account holding the ADMIN role. -/
def adminRows (members : List JointAccountMember) (jointAccountId : String) :
    List JointAccountMember :=
  members.filter (fun m => m.jointAccountId == jointAccountId && m.role == "ADMIN")

/-- The single-admin invariant: every stored joint account has exactly one
ADMIN membership row, and it belongs to the account's `adminUserId`. -/
def singleAdminInv (s : Db) : Prop :=
  ∀ acct ∈ s.jointAccounts,
    (adminRows s.members acct.id).length = 1 ∧
    ∀ m ∈ adminRows s.members acct.id, m.userId = acct.adminUserId

/-- Pending invites of one (account, lowercased email) pair. -/
def pendingCount (invites : List JointAccountInvite) (jointAccountId email : String) : Nat :=
  (invites.filter (pendingMatch jointAccountId email)).length

/-- The invite-uniqueness invariant on an invite list: every PENDING
invite is the only PENDING invite for its (account, email) pair. -/
def pendingUniqueL (invites : List JointAccountInvite) : Prop :=
  ∀ i ∈ invites, i.status = "PENDING" →
    pendingCount invites i.jointAccountId i.invitedEmail = 1

/-- The invite-uniqueness invariant of a store. -/
def pendingUnique (s : Db) : Prop := pendingUniqueL s.invites

theorem mem_updateFirst {α : Type} {q : α → Bool} {f : α → α} :
    ∀ (l : List α) (x : α), x ∈ updateFirst q f l →
      x ∈ l ∨ ∃ y, y ∈ l ∧ q y = true ∧ x = f y
  | [], x, h => by simp [updateFirst] at h
  | a :: l, x, h => by
    by_cases hqa : q a
    · simp only [updateFirst, if_pos hqa, List.mem_cons] at h
      rcases h with h | h
      · exact Or.inr ⟨a, List.mem_cons_self a l, hqa, h⟩
      · exact Or.inl (List.mem_cons_of_mem _ h)
    · simp only [updateFirst, if_neg hqa, List.mem_cons] at h
      rcases h with h | h
      · exact Or.inl (by simp [h])
      · rcases mem_updateFirst l x h with h' | ⟨y, hy, hqy, hxy⟩
        · exact Or.inl (List.mem_cons_of_mem _ h')
        · exact Or.inr ⟨y, List.mem_cons_of_mem _ hy, hqy, hxy⟩

theorem length_filter_updateFirst_le {α : Type} (p q : α → Bool) (f : α → α)
    (hp : ∀ x, p (f x) = false) :
    ∀ l : List α, ((updateFirst q f l).filter p).length ≤ (l.filter p).length
  | [] => by simp [updateFirst]
  | a :: l => by
    by_cases hqa : q a
    · simp only [updateFirst, if_pos hqa, List.filter_cons, hp a]
      cases hpa : p a <;> simp [Nat.le_succ_of_le]
    · simp only [updateFirst, if_neg hqa, List.filter_cons]
      cases hpa : p a <;>
        simpa using length_filter_updateFirst_le p q f hp l

theorem find?_updateFirst_same {α : Type} (q : α → Bool) (f : α → α) :
    ∀ (l : List α) (x : α), l.find? q = some x → q (f x) = true →
      (updateFirst q f l).find? q = some (f x)
  | [], x, h, _ => by simp at h
  | a :: l, x, h, hfx => by
    by_cases hqa : q a
    · rw [List.find?_cons_of_pos _ hqa] at h
      cases h
      simp only [updateFirst, if_pos hqa]
      exact List.find?_cons_of_pos _ hfx
    · rw [List.find?_cons_of_neg _ hqa] at h
      simp only [updateFirst, if_neg hqa]
      rw [List.find?_cons_of_neg _ hqa]
      exact find?_updateFirst_same q f l x h hfx

theorem filter_eraseP {α : Type} (p q : α → Bool) :
    ∀ l : List α, (∀ x ∈ l, q x = true → p x = false) →
      (l.eraseP q).filter p = l.filter p
  | [], _ => rfl
  | a :: l, h => by
    by_cases hqa : q a
    · rw [List.eraseP_cons_of_pos hqa, List.filter_cons,
        h a (List.mem_cons_self a l) hqa]
      simp
    · rw [List.eraseP_cons_of_neg hqa, List.filter_cons, List.filter_cons,
        filter_eraseP p q l (fun x hx => h x (List.mem_cons_of_mem _ hx))]

/-- C1: for every (joint account, user) pair without a membership row,
each mutating operation on that account — transaction create/update/
delete/bulk-delete, goal create/update/delete, subscription create/
update/delete — returns the 403 "You are not a member of this joint
account" response and leaves the store untouched (the result is exactly
`notMemberRes s`, whose store is the input store and whose fan-out list is
empty). -/
theorem nonmember_mutations_rejected (s : Db) (acct uid : String)
    (hmem : findMembership s acct uid = none) :
    (∀ userName amount currency ttype category date note newId today now,
      acct ≠ "" → amount ≠ 0 → ttype ≠ "" → category ≠ "" →
      createTransaction s uid userName acct amount currency ttype category
        date note newId today now = notMemberRes s) ∧
    (∀ tid t amount? currency? ttype? category? date? note? now,
      s.transactions.find? (fun x => x.id == tid) = some t →
      t.jointAccountId = acct →
      updateTransaction s tid uid amount? currency? ttype? category? date?
        note? now = notMemberRes s) ∧
    (∀ tid t, s.transactions.find? (fun x => x.id == tid) = some t →
      t.jointAccountId = acct → deleteTransaction s tid uid = notMemberRes s) ∧
    (∀ ids, acct ≠ "" → bulkDeleteTransactions s uid ids acct = notMemberRes s) ∧
    (∀ name targetAmount currentAmount currency deadline newId now,
      acct ≠ "" → name ≠ "" → targetAmount ≠ 0 →
      createGoal s uid acct name targetAmount currentAmount currency deadline
        newId now = notMemberRes s) ∧
    (∀ gid g name? targetAmount? currentAmount? currency? deadline? now,
      s.goals.find? (fun x => x.id == gid) = some g → g.jointAccountId = acct →
      updateGoal s gid uid name? targetAmount? currentAmount? currency?
        deadline? now = notMemberRes s) ∧
    (∀ gid g, s.goals.find? (fun x => x.id == gid) = some g →
      g.jointAccountId = acct → deleteGoal s gid uid = notMemberRes s) ∧
    (∀ name amount currency cycle nextBillingDate newId today now,
      acct ≠ "" → name ≠ "" → amount ≠ 0 → cycle ≠ "" →
      createSubscription s uid acct name amount currency cycle nextBillingDate
        newId today now = notMemberRes s) ∧
    (∀ sid sub name? amount? currency? cycle? nextBillingDate? now,
      s.subscriptions.find? (fun x => x.id == sid) = some sub →
      sub.jointAccountId = acct →
      updateSubscription s sid uid name? amount? currency? cycle?
        nextBillingDate? now = notMemberRes s) ∧
    (∀ sid sub, s.subscriptions.find? (fun x => x.id == sid) = some sub →
      sub.jointAccountId = acct → deleteSubscription s sid uid = notMemberRes s) := by
  refine ⟨?_, ?_, ?_, ?_, ?_, ?_, ?_, ?_, ?_, ?_⟩
  · intro userName amount currency ttype category date note newId today now h1 h2 h3 h4
    simp [createTransaction, hmem, h1, h2, h3, h4]
  · intro tid t amount? currency? ttype? category? date? note? now hfind hacct
    simp [updateTransaction, hfind, hacct, hmem]
  · intro tid t hfind hacct
    simp [deleteTransaction, hfind, hacct, hmem]
  · intro ids h1
    simp [bulkDeleteTransactions, hmem, h1]
  · intro name targetAmount currentAmount currency deadline newId now h1 h2 h3
    simp [createGoal, hmem, h1, h2, h3]
  · intro gid g name? targetAmount? currentAmount? currency? deadline? now hfind hacct
    simp [updateGoal, hfind, hacct, hmem]
  · intro gid g hfind hacct
    simp [deleteGoal, hfind, hacct, hmem]
  · intro name amount currency cycle nextBillingDate newId today now h1 h2 h3 h4
    simp [createSubscription, hmem, h1, h2, h3, h4]
  · intro sid sub name? amount? currency? cycle? nextBillingDate? now hfind hacct
    simp [updateSubscription, hfind, hacct, hmem]
  · intro sid sub hfind hacct
    simp [deleteSubscription, hfind, hacct, hmem]

/-- Witness for C1 at the concrete store: user u9 holds no membership in
account a, and creating a transaction there yields exactly the not-a-member
403 with the store unchanged. -/
theorem nonmember_mutations_rejected_witness :
    createTransaction baseDb "u9" "Nina" "a" 5 "" "EXPENSE" "Food" "" none
      "t9" "2026-01-02" 1 = notMemberRes baseDb :=
  (nonmember_mutations_rejected baseDb "a" "u9" (by decide)).1 "Nina" 5 ""
    "EXPENSE" "Food" "" none "t9" "2026-01-02" 1
    (by decide) (by decide) (by decide) (by decide)

/-- C10: bulk delete only removes transactions of the stated joint
account; a transaction of any other account survives even when its id is
listed. -/
theorem bulk_delete_scoped_to_account (s : Db) (uid jid : String)
    (ids : List String) (m : JointAccountMember)
    (hjid : jid ≠ "") (hmem : findMembership s jid uid = some m) :
    (bulkDeleteTransactions s uid ids jid).status = 200 ∧
    (bulkDeleteTransactions s uid ids jid).db.transactions =
      s.transactions.filter
        (fun t => !(ids.contains t.id && t.jointAccountId == jid)) ∧
    ∀ t ∈ s.transactions, t.jointAccountId ≠ jid →
      t ∈ (bulkDeleteTransactions s uid ids jid).db.transactions := by
  refine ⟨by simp [bulkDeleteTransactions, hjid, hmem],
          by simp [bulkDeleteTransactions, hjid, hmem], ?_⟩
  intro t ht hne
  simp only [bulkDeleteTransactions, if_neg hjid, hmem]
  exact List.mem_filter.mpr (by simp [ht, hne])

/-- Witness for C10: member u2 bulk-deletes ids t1 and t2 in account a;
the foreign transaction t2 (account b) survives. -/
theorem bulk_delete_scoped_to_account_witness :
    otherTxn ∈ (bulkDeleteTransactions baseDb "u2" ["t1", "t2"] "a").db.transactions :=
  (bulk_delete_scoped_to_account baseDb "u2" "a" ["t1", "t2"] bobMemberRow
    (by decide) (by decide)).2.2 otherTxn (by decide) (by decide)

/-- C5: responding (accept or decline) to an invite whose `expiresAt` lies
strictly in the past fails — with 403 when the requester's email does not
match, with 400 "Invitation already responded to" when the stored status
is not PENDING, and with 400 "Invitation has expired" otherwise — and in
every case the store (invite status included) is unchanged and no
membership row is created. -/
theorem expired_invite_respond_fails (s : Db) (inviteId : String)
    (inv : JointAccountInvite) (accept : Bool) (userId email mid : String)
    (now : Nat)
    (hfind : s.invites.find? (fun i => i.id == inviteId) = some inv)
    (hexp : inv.expiresAt < now) :
    ((respondInvite s inviteId accept userId email mid now).status = 400 ∨
      (respondInvite s inviteId accept userId email mid now).status = 403) ∧
    (respondInvite s inviteId accept userId email mid now).error.isSome = true ∧
    (respondInvite s inviteId accept userId email mid now).db = s := by
  simp only [respondInvite, hfind]
  by_cases h1 : inv.invitedEmail = lowerString email
  · by_cases h2 : inv.status = "PENDING"
    · simp [h1, h2, hexp, errRes]
    · simp [h1, h2, errRes]
  · simp [h1, errRes]

/-- Witness for C5: the pending invite i1 expired at 100; accepting it at
time 200 fails and leaves the store unchanged. -/
theorem expired_invite_respond_fails_witness :
    ((respondInvite baseDb "i1" true "u9" "bob@x.com" "m9" 200).status = 400 ∨
      (respondInvite baseDb "i1" true "u9" "bob@x.com" "m9" 200).status = 403) ∧
    (respondInvite baseDb "i1" true "u9" "bob@x.com" "m9" 200).error.isSome = true ∧
    (respondInvite baseDb "i1" true "u9" "bob@x.com" "m9" 200).db = baseDb :=
  expired_invite_respond_fails baseDb "i1" bobInvite true "u9" "bob@x.com"
    "m9" 200 (by decide) (by decide)

/-- C9: accepting a pending, unexpired invite addressed to the requester's
(lowercased) email returns success, flips the stored invite to ACCEPTED,
and appends exactly one membership row with the non-admin MEMBER role;
afterwards a second accept attempt on the same invite fails with 400
"Invitation already responded to" and changes nothing. -/
theorem accept_invite_creates_membership (s : Db) (inviteId : String)
    (inv : JointAccountInvite) (userId email mid : String) (now : Nat)
    (hfind : s.invites.find? (fun i => i.id == inviteId) = some inv)
    (hemail : inv.invitedEmail = lowerString email)
    (hpend : inv.status = "PENDING")
    (hnotexp : ¬ inv.expiresAt < now) :
    (respondInvite s inviteId true userId email mid now).status = 200 ∧
    (respondInvite s inviteId true userId email mid now).error = none ∧
    (respondInvite s inviteId true userId email mid now).db.members =
      s.members ++ [⟨mid, inv.jointAccountId, userId, "MEMBER", now⟩] ∧
    (respondInvite s inviteId true userId email mid now).db.invites.find?
      (fun i => i.id == inviteId) = some { inv with status := "ACCEPTED" } ∧
    (∀ uid2 mid2 now2,
      respondInvite (respondInvite s inviteId true userId email mid now).db
        inviteId true uid2 email mid2 now2 =
      errRes (respondInvite s inviteId true userId email mid now).db 400
        "Invitation already responded to") := by
  have hfind' : (updateFirst (fun i => i.id == inviteId)
      (fun i => { i with status := "ACCEPTED" }) s.invites).find?
      (fun i => i.id == inviteId) = some { inv with status := "ACCEPTED" } :=
    find?_updateFirst_same _ _ s.invites inv hfind
      (by simpa using List.find?_some hfind)
  have hres : respondInvite s inviteId true userId email mid now =
      ⟨200, none,
        { s with
          invites := updateFirst (fun i => i.id == inviteId)
            (fun i => { i with status := "ACCEPTED" }) s.invites
          members := s.members ++ [⟨mid, inv.jointAccountId, userId, "MEMBER", now⟩] },
        []⟩ := by
    simp [respondInvite, hfind, hemail, hpend, hnotexp]
  refine ⟨by rw [hres], by rw [hres], by rw [hres], by rw [hres]; exact hfind', ?_⟩
  intro uid2 mid2 now2
  rw [hres]
  simp [respondInvite, hfind', hemail]

/-- Witness for C9: u9 accepts the pending invite i2 (dave@x.com, expires
at 100) at time 50; the membership row appears, the invite is ACCEPTED,
and repeating the accept yields the 400. -/
theorem accept_invite_creates_membership_witness :
    (respondInvite baseDb "i2" true "u9" "dave@x.com" "m9" 50).status = 200 ∧
    (respondInvite baseDb "i2" true "u9" "dave@x.com" "m9" 50).db.members =
      baseDb.members ++ [⟨"m9", "a", "u9", "MEMBER", 50⟩] ∧
    (∀ uid2 mid2 now2,
      respondInvite (respondInvite baseDb "i2" true "u9" "dave@x.com" "m9" 50).db
        "i2" true uid2 "dave@x.com" mid2 now2 =
      errRes (respondInvite baseDb "i2" true "u9" "dave@x.com" "m9" 50).db 400
        "Invitation already responded to") :=
  let h := accept_invite_creates_membership baseDb "i2" daveInvite "u9"
    "dave@x.com" "m9" 50 (by decide) (by decide) (by decide) (by decide)
  ⟨h.1, h.2.2.1, h.2.2.2.2⟩

theorem pendingCount_append_single (l : List JointAccountInvite)
    (x : JointAccountInvite) (a e : String) :
    pendingCount (l ++ [x]) a e =
      pendingCount l a e + if pendingMatch a e x then 1 else 0 := by
  simp only [pendingCount, List.filter_append, List.filter_cons,
    List.filter_nil, List.length_append]
  split <;> simp

theorem pendingUniqueL_append_fresh (l : List JointAccountInvite)
    (hl : pendingUniqueL l) (x : JointAccountInvite)
    (hfresh : ∀ y ∈ l,
      pendingMatch x.jointAccountId x.invitedEmail y = false) :
    pendingUniqueL (l ++ [x]) := by
  intro i hi hpend
  rcases List.mem_append.mp hi with hold | hx
  · rw [pendingCount_append_single]
    have hmatchf : pendingMatch i.jointAccountId i.invitedEmail x = false := by
      by_contra hc
      rw [Bool.not_eq_false] at hc
      simp only [pendingMatch, Bool.and_eq_true, beq_iff_eq] at hc
      have hi' : pendingMatch x.jointAccountId x.invitedEmail i = true := by
        simp only [pendingMatch, Bool.and_eq_true, beq_iff_eq]
        exact ⟨⟨hc.1.1.symm, hc.1.2.symm⟩, by simpa using hpend⟩
      have := hfresh i hold
      rw [hi'] at this
      exact absurd this (by simp)
    rw [hmatchf]
    simpa using hl i hold hpend
  · have hx' : i = x := by simpa using hx
    subst hx'
    rw [pendingCount_append_single]
    have hzero : pendingCount l i.jointAccountId i.invitedEmail = 0 := by
      simp only [pendingCount, List.length_eq_zero]
      rw [List.filter_eq_nil_iff]
      intro y hy
      simp [hfresh y hy]
    simp [hzero, pendingMatch, hpend]

theorem pendingUniqueL_updateFirst_status (l : List JointAccountInvite)
    (hl : pendingUniqueL l) (q : JointAccountInvite → Bool) (st : String)
    (hst : st ≠ "PENDING") :
    pendingUniqueL (updateFirst q (fun i => { i with status := st }) l) := by
  intro i hi hpend
  have hiold : i ∈ l := by
    rcases mem_updateFirst _ _ hi with h | ⟨y, _, _, hxy⟩
    · exact h
    · exact absurd (by rw [← hpend, hxy]) hst
  have hle : pendingCount (updateFirst q (fun i => { i with status := st }) l)
      i.jointAccountId i.invitedEmail ≤
      pendingCount l i.jointAccountId i.invitedEmail := by
    apply length_filter_updateFirst_le
    intro x
    simp only [pendingMatch]
    rw [Bool.and_eq_false_iff]
    right
    simpa using hst
  have hge : 1 ≤ pendingCount
      (updateFirst q (fun i => { i with status := st }) l)
      i.jointAccountId i.invitedEmail := by
    apply List.length_pos.mpr
    apply List.ne_nil_of_mem (a := i)
    exact List.mem_filter.mpr ⟨hi, by simp [pendingMatch, hpend]⟩
  have := hl i hiold hpend
  omega

/-- C6: at most one PENDING invite per (account, lowercased email) pair.
Creating a second invite while one is pending fails with 400 "Invitation
already pending" and inserts nothing, and both the invite-creation and
the invite-response routes preserve the uniqueness invariant. -/
theorem pending_invite_unique (s : Db) (hinv : pendingUnique s) :
    (∀ jid uid email nid now j,
      requireAdminCheck s jid uid = none → email ≠ "" →
      inviteeAlreadyMember s jid email = false →
      s.invites.find? (pendingMatch jid (lowerString email)) = some j →
      inviteMember s jid uid email nid now =
        errRes s 400 "Invitation already pending") ∧
    (∀ jid uid email nid now,
      pendingUnique (inviteMember s jid uid email nid now).db) ∧
    (∀ iid accept uid email mid now,
      pendingUnique (respondInvite s iid accept uid email mid now).db) := by
  refine ⟨?_, ?_, ?_⟩
  · intro jid uid email nid now j hadm hem halr hfind
    simp [inviteMember, hadm, hem, halr, hfind]
  · intro jid uid email nid now
    unfold inviteMember
    cases hadm : requireAdminCheck s jid uid with
    | some e => exact hinv
    | none =>
      by_cases hem : email = ""
      · simpa [hem, errRes] using hinv
      · by_cases halr : inviteeAlreadyMember s jid email
        · simpa [hem, halr, errRes] using hinv
        · cases hfind : s.invites.find? (pendingMatch jid (lowerString email)) with
          | some j => simpa [hem, halr, errRes] using hinv
          | none =>
            simp only [if_neg hem, Bool.false_eq_true, if_neg halr,
              Bool.not_eq_true]
            apply pendingUniqueL_append_fresh s.invites hinv
            intro y hy
            simpa using List.find?_eq_none.mp hfind y hy
  · intro iid accept uid email mid now
    unfold respondInvite
    cases hfind : s.invites.find? (fun i => i.id == iid) with
    | none => exact hinv
    | some inv =>
      by_cases h1 : inv.invitedEmail = lowerString email
      case neg => simpa [h1, errRes] using hinv
      by_cases h2 : inv.status = "PENDING"
      case neg => simpa [h1, h2, errRes] using hinv
      by_cases h3 : inv.expiresAt < now
      case pos => simpa [h1, h2, h3, errRes] using hinv
      have hmain := pendingUniqueL_updateFirst_status s.invites hinv
        (fun i => i.id == iid) (if accept then "ACCEPTED" else "DECLINED")
        (by cases accept <;> simp)
      by_cases hacc : accept
      · simpa [h1, h2, h3, hacc] using hmain
      · simpa [h1, h2, h3, hacc] using hmain

/-- Witness for C6: the base store satisfies the invariant, and inviting
Dave@X.com to account a while the pending invite i2 (dave@x.com) exists
yields the 400 with nothing inserted. -/
theorem pending_invite_unique_witness :
    inviteMember baseDb "a" "u1" "Dave@X.com" "i9" 7 =
      errRes baseDb 400 "Invitation already pending" :=
  (pending_invite_unique baseDb
      (by unfold pendingUnique pendingUniqueL; decide)).1
    "a" "u1" "Dave@X.com" "i9" 7 daveInvite
    (by decide) (by decide) (by decide) (by decide)

/-- Counterexample for C4 as stated: Bob (u2) is a current member of
account a other than the actor u1, yet he is not among the users the push
fan-out attempts to deliver to, because his user document has
`notificationsEnabled: false` and no stored push subscription. -/
theorem fanout_misses_member_without_subscription :
    bobMemberRow ∈ baseDb.members ∧ bobMemberRow.jointAccountId = "a" ∧
    bobMemberRow.userId ≠ "u1" ∧
    bobMemberRow.userId ∉ pushAttemptUsers baseDb "a" "u1" := by decide

/-- C4 (amended): the acting user is never targeted by the fan-out and
never receives a push attempt; every other current member of the account
is in the fan-out target list; and of those, exactly the ones whose user
document has notifications enabled and a stored push subscription receive
a push send attempt. -/
theorem fanout_excludes_actor_reaches_subscribed (s : Db) (a actor : String) :
    actor ∉ notifyTargets s a actor ∧
    actor ∉ pushAttemptUsers s a actor ∧
    (∀ m ∈ s.members, m.jointAccountId = a → m.userId ≠ actor →
      m.userId ∈ notifyTargets s a actor) ∧
    (∀ m ∈ s.members, ∀ u ∈ s.users, m.jointAccountId = a →
      m.userId ≠ actor → u.id = m.userId → u.notificationsEnabled = true →
      u.pushSubscription.isSome = true → u.id ∈ pushAttemptUsers s a actor) := by
  have htargets : actor ∉ notifyTargets s a actor := by
    intro h
    simp only [notifyTargets, List.mem_map, List.mem_filter] at h
    rcases h with ⟨m, ⟨_, hne⟩, hm⟩
    rw [hm] at hne
    simp at hne
  refine ⟨htargets, ?_, ?_, ?_⟩
  · intro h
    simp only [pushAttemptUsers, List.mem_map, List.mem_filter] at h
    rcases h with ⟨u, ⟨_, hflags⟩, hu⟩
    rw [Bool.and_assoc, Bool.and_eq_true] at hflags
    have : u.id ∈ notifyTargets s a actor := by
      simpa using hflags.1
    rw [hu] at this
    exact htargets this
  · intro m hm hja hne
    simp only [notifyTargets, List.mem_map, List.mem_filter]
    exact ⟨m, ⟨⟨hm, by simp [hja]⟩, by simpa using hne⟩, rfl⟩
  · intro m hm u hu hja hne huid hen hsub
    simp only [pushAttemptUsers, List.mem_map, List.mem_filter]
    refine ⟨u, ⟨hu, ?_⟩, rfl⟩
    rw [Bool.and_assoc, Bool.and_eq_true]
    constructor
    · have : u.id ∈ notifyTargets s a actor := by
        rw [huid]
        simp only [notifyTargets, List.mem_map, List.mem_filter]
        exact ⟨m, ⟨⟨hm, by simp [hja]⟩, by simpa using hne⟩, rfl⟩
      simpa using this
    · simp [hen, hsub]

/-- Witness for C4's amended theorem: in the base store, with Bob (u2)
acting, Alice is another member with notifications enabled and a stored
subscription, so she is among the attempted push recipients. -/
theorem fanout_excludes_actor_reaches_subscribed_witness :
    alice.id ∈ pushAttemptUsers baseDb "a" "u2" :=
  (fanout_excludes_actor_reaches_subscribed baseDb "a" "u2").2.2.2
    aliceAdminRow (by decide) alice (by decide) (by decide) (by decide)
    (by decide) (by decide) (by decide)

/-- Reduction of PUT /goals/:goalId when the goal and the membership are
found and the body sets `currentAmount := v` without touching
`targetAmount`: the update succeeds and the milestone fan-out is decided
by the old and new progress percentages. -/
theorem updateGoal_setCurrent (s : Db) (goalId uid : String) (g : GoalDoc)
    (m : JointAccountMember) (v : Rat) (name? : Option String)
    (currency? : Option String) (deadline? : Option (Option String)) (now : Nat)
    (hg : s.goals.find? (fun x => x.id == goalId) = some g)
    (hm : findMembership s g.jointAccountId uid = some m) :
    updateGoal s goalId uid name? none (some v) currency? deadline? now =
      { status := 200, error := none
        db := { s with goals := updateFirst (fun x => x.id == goalId) (fun x => applyGoalUpdate x name? none (some v) currency? deadline? now) s.goals }
        pushes :=
          if 100 ≤ v / g.targetAmount * 100 ∧ g.currentAmount / g.targetAmount * 100 < 100 then [⟨g.jointAccountId, uid, "goal-achieved-" ++ g.id, "goal-achieved"⟩]
          else if g.currentAmount / g.targetAmount * 100 < v / g.targetAmount * 100 ∧ ⌊(g.currentAmount / g.targetAmount * 100) / 25⌋ < ⌊(v / g.targetAmount * 100) / 25⌋ then [⟨g.jointAccountId, uid, "goal-progress-" ++ g.id, "goal-progress"⟩]
          else [] } := by
  simp [updateGoal, hg, hm, applyGoalUpdate]

/-- Counterexample for C3 as stated: the goal g1 stands at 30 of 100
(30%); member u2 updates currentAmount to 20 (20%), moving progress
across the 25% boundary exactly once (the floor of progress/25 changes
from 1 to 0), yet the successful update emits no milestone notification,
because the handler only fires on strictly increased progress. -/
theorem goal_milestone_downward_crossing_missed :
    (updateGoal baseDb "g1" "u2" none none (some 20) none none 5).status = 200 ∧
    (updateGoal baseDb "g1" "u2" none none (some 20) none none 5).pushes = [] ∧
    ⌊((20:Rat) / 100 * 100) / 25⌋ ≠ ⌊((30:Rat) / 100 * 100) / 25⌋ := by
  rw [updateGoal_setCurrent baseDb "g1" "u2" tripGoal bobMemberRow 20
    none none none 5 (by decide) (by decide)]
  refine ⟨rfl, ?_, by norm_num⟩
  norm_num [tripGoal]

/-- C3 (amended): for a member's goal update that sets `currentAmount`
(leaving `targetAmount` alone, positive target): an update that keeps
floor(progress/25) constant emits no milestone notification, a
non-increase of progress emits none, and an increase crossing exactly one
25%-floor boundary emits exactly one — the distinct achieved variant when
the update reaches 100% from below, the generic milestone otherwise. -/
theorem goal_milestone_directional (s : Db) (goalId uid : String)
    (g : GoalDoc) (m : JointAccountMember) (v : Rat)
    (name? : Option String) (currency? : Option String)
    (deadline? : Option (Option String)) (now : Nat)
    (hg : s.goals.find? (fun x => x.id == goalId) = some g)
    (hm : findMembership s g.jointAccountId uid = some m)
    (htgt : 0 < g.targetAmount) :
    (updateGoal s goalId uid name? none (some v) currency? deadline? now).status
      = 200 ∧
    (⌊(v / g.targetAmount * 100) / 25⌋ =
        ⌊(g.currentAmount / g.targetAmount * 100) / 25⌋ →
      (updateGoal s goalId uid name? none (some v) currency? deadline? now).pushes
        = []) ∧
    (v / g.targetAmount * 100 ≤ g.currentAmount / g.targetAmount * 100 →
      (updateGoal s goalId uid name? none (some v) currency? deadline? now).pushes
        = []) ∧
    (g.currentAmount / g.targetAmount * 100 < v / g.targetAmount * 100 →
      ⌊(v / g.targetAmount * 100) / 25⌋ =
        ⌊(g.currentAmount / g.targetAmount * 100) / 25⌋ + 1 →
      (updateGoal s goalId uid name? none (some v) currency? deadline? now).pushes
        = (if 100 ≤ v / g.targetAmount * 100 ∧
              g.currentAmount / g.targetAmount * 100 < 100
           then [⟨g.jointAccountId, uid, "goal-achieved-" ++ g.id, "goal-achieved"⟩]
           else [⟨g.jointAccountId, uid, "goal-progress-" ++ g.id, "goal-progress"⟩])) := by
  have h25 : (0:Rat) < 25 := by norm_num
  rw [updateGoal_setCurrent s goalId uid g m v name? currency? deadline? now hg hm]
  refine ⟨rfl, ?_, ?_, ?_⟩
  · intro hfl
    simp only
    rw [if_neg, if_neg]
    · rintro ⟨-, hlt⟩
      omega
    · rintro ⟨h100, hlt⟩
      have h4le : (4:Int) ≤ ⌊(v / g.targetAmount * 100) / 25⌋ := by
        apply Int.le_floor.mpr
        rw [le_div_iff h25]
        push_cast
        linarith
      have h4gt : ⌊(g.currentAmount / g.targetAmount * 100) / 25⌋ < 4 := by
        apply Int.floor_lt.mpr
        rw [div_lt_iff h25]
        push_cast
        linarith
      omega
  · intro hle
    simp only
    rw [if_neg, if_neg]
    · rintro ⟨hlt, -⟩
      linarith
    · rintro ⟨h100, hlt⟩
      linarith
  · intro hup hfl
    simp only
    by_cases hach : 100 ≤ v / g.targetAmount * 100 ∧
        g.currentAmount / g.targetAmount * 100 < 100
    · rw [if_pos hach, if_pos hach]
    · rw [if_neg hach, if_pos ⟨hup, by omega⟩, if_neg hach]

/-- Witness for C3's amended theorem at the base store: goal g1 (30 of
100) updated by member u2 with currentAmount 55, an increase crossing one
25%-floor boundary below 100%, emits exactly the generic milestone call. -/
theorem goal_milestone_directional_witness :
    (updateGoal baseDb "g1" "u2" none none (some 55) none none 5).pushes
      = (if 100 ≤ (55:Rat) / tripGoal.targetAmount * 100 ∧
            tripGoal.currentAmount / tripGoal.targetAmount * 100 < 100
         then [⟨"a", "u2", "goal-achieved-g1", "goal-achieved"⟩]
         else [⟨"a", "u2", "goal-progress-g1", "goal-progress"⟩]) :=
  (goal_milestone_directional baseDb "g1" "u2" tripGoal bobMemberRow 55
    none none none 5 (by decide) (by decide) (by decide)).2.2.2
    (by norm_num [tripGoal]) (by norm_num [tripGoal])

/-- Counterexample for C7 as stated: member u2 creates a goal with a
negative targetAmount of -5; the request passes the `!targetAmount`
truthiness check (only zero is falsy), succeeds with 201, and the
document is inserted. -/
theorem negative_goal_amount_accepted :
    (createGoal baseDb "u2" "a" "Debt" (-5) 0 "USD" none "g9" 7).status = 201 ∧
    (createGoal baseDb "u2" "a" "Debt" (-5) 0 "USD" none "g9" 7).db.goals.length
      = baseDb.goals.length + 1 := by decide

/-- C7 (amended): a goal or subscription creation whose amount is zero is
rejected with 400 as a missing field and nothing is inserted; a negative
amount, however, is accepted: for a member the document is inserted with
the negative amount stored. -/
theorem zero_amount_rejected_negative_accepted (s : Db) (uid jid nm : String) :
    (∀ currentAmount currency deadline newId now,
      createGoal s uid jid nm 0 currentAmount currency deadline newId now =
        errRes s 400 "Missing required fields: jointAccountId, name, targetAmount") ∧
    (∀ currency cycle nextBillingDate newId today now,
      createSubscription s uid jid nm 0 currency cycle nextBillingDate newId
        today now =
        errRes s 400 "Missing required fields: jointAccountId, name, amount, cycle") ∧
    (∀ (amt : Rat) (m : JointAccountMember) currentAmount currency deadline newId now,
      amt < 0 → jid ≠ "" → nm ≠ "" → findMembership s jid uid = some m →
      (createGoal s uid jid nm amt currentAmount currency deadline newId now).status
          = 201 ∧
      (createGoal s uid jid nm amt currentAmount currency deadline newId now).db.goals
          = s.goals ++ [⟨newId, jid, nm, amt, currentAmount,
              if currency = "" then "USD" else currency, deadline, now, now⟩]) ∧
    (∀ (amt : Rat) (m : JointAccountMember) currency cycle nextBillingDate newId today now,
      amt < 0 → jid ≠ "" → nm ≠ "" → cycle ≠ "" →
      findMembership s jid uid = some m →
      (createSubscription s uid jid nm amt currency cycle nextBillingDate newId
          today now).status = 201 ∧
      (createSubscription s uid jid nm amt currency cycle nextBillingDate newId
          today now).db.subscriptions
        = s.subscriptions ++ [⟨newId, jid, nm, amt,
            if currency = "" then "USD" else currency, cycle,
            if nextBillingDate = "" then today else nextBillingDate, now, now⟩]) := by
  refine ⟨?_, ?_, ?_, ?_⟩
  · intro currentAmount currency deadline newId now
    simp [createGoal]
  · intro currency cycle nextBillingDate newId today now
    simp [createSubscription]
  · intro amt m currentAmount currency deadline newId now hneg hjid hnm hmem
    have hamt : amt ≠ 0 := ne_of_lt hneg
    constructor <;> simp [createGoal, hjid, hnm, hamt, hmem]
  · intro amt m currency cycle nextBillingDate newId today now hneg hjid hnm hcy hmem
    have hamt : amt ≠ 0 := ne_of_lt hneg
    constructor <;> simp [createSubscription, hjid, hnm, hamt, hcy, hmem]

/-- Witness for C7's amended theorem: creating a goal with targetAmount 0
in account a is rejected with the missing-fields 400 and the store is
unchanged, while targetAmount -5 by member u2 is inserted. -/
theorem zero_amount_rejected_negative_accepted_witness :
    createGoal baseDb "u2" "a" "Debt" 0 0 "USD" none "g9" 7 =
      errRes baseDb 400 "Missing required fields: jointAccountId, name, targetAmount" ∧
    (createGoal baseDb "u2" "a" "Debt" (-5) 0 "USD" none "g9" 7).status = 201 :=
  ⟨(zero_amount_rejected_negative_accepted baseDb "u2" "a" "Debt").1 0 "USD"
      none "g9" 7,
    ((zero_amount_rejected_negative_accepted baseDb "u2" "a" "Debt").2.2.1
      (-5) bobMemberRow 0 "USD" none "g9" 7 (by decide) (by decide) (by decide)
      (by decide)).1⟩

/-- Counterexample for C8 as stated: Carol (u3) holds a membership row in
account a whose stored role is "VIEWER", yet her transaction update
succeeds with 200 and the write is performed — the canonical routes check
membership only and never the role, and no InsufficientRole error exists
on the financial routes. -/
theorem viewer_role_member_can_write :
    carolViewerRow ∈ viewerDb.members ∧ carolViewerRow.role = "VIEWER" ∧
    carolViewerRow.userId = "u3" ∧
    (updateTransaction viewerDb "t1" "u3" (some 50) none none none none none 5).status
      = 200 ∧
    (updateTransaction viewerDb "t1" "u3" (some 50) none none none none none 5).error
      = none ∧
    (updateTransaction viewerDb "t1" "u3" (some 50) none none none none
        none 5).db.transactions ≠ viewerDb.transactions := by decide

/-- C8 (amended): the financial routes gate on membership alone: every
member of the target account — whatever string their stored role holds
(ADMIN, MEMBER, or anything else such as VIEWER or EDITOR) — succeeds in
creating, updating and deleting transactions, goals and subscriptions,
and the write is performed; no role-based 403 is ever produced by these
routes. -/
theorem member_any_role_mutations_succeed (s : Db) (acct uid : String)
    (m : JointAccountMember) (hmem : findMembership s acct uid = some m) :
    (∀ userName amount currency ttype category date note newId today now,
      acct ≠ "" → amount ≠ 0 → ttype ≠ "" → category ≠ "" →
      (createTransaction s uid userName acct amount currency ttype category
          date note newId today now).status = 201 ∧
      (createTransaction s uid userName acct amount currency ttype category
          date note newId today now).error = none ∧
      (createTransaction s uid userName acct amount currency ttype category
          date note newId today now).db.transactions.length
        = s.transactions.length + 1) ∧
    (∀ tid t amount? currency? ttype? category? date? note? now,
      s.transactions.find? (fun x => x.id == tid) = some t →
      t.jointAccountId = acct →
      (updateTransaction s tid uid amount? currency? ttype? category? date?
          note? now).status = 200 ∧
      (updateTransaction s tid uid amount? currency? ttype? category? date?
          note? now).error = none ∧
      (updateTransaction s tid uid amount? currency? ttype? category? date?
          note? now).db.transactions
        = updateFirst (fun x => x.id == tid)
            (fun x => applyTxnUpdate x amount? currency? ttype? category?
              date? note? now) s.transactions) ∧
    (∀ tid t, s.transactions.find? (fun x => x.id == tid) = some t →
      t.jointAccountId = acct →
      (deleteTransaction s tid uid).status = 200 ∧
      (deleteTransaction s tid uid).error = none ∧
      (deleteTransaction s tid uid).db.transactions
        = s.transactions.eraseP (fun x => x.id == tid)) ∧
    (∀ name targetAmount currentAmount currency deadline newId now,
      acct ≠ "" → name ≠ "" → targetAmount ≠ 0 →
      (createGoal s uid acct name targetAmount currentAmount currency
          deadline newId now).status = 201 ∧
      (createGoal s uid acct name targetAmount currentAmount currency
          deadline newId now).db.goals.length = s.goals.length + 1) ∧
    (∀ gid g name? targetAmount? currentAmount? currency? deadline? now,
      s.goals.find? (fun x => x.id == gid) = some g → g.jointAccountId = acct →
      (updateGoal s gid uid name? targetAmount? currentAmount? currency?
          deadline? now).status = 200 ∧
      (updateGoal s gid uid name? targetAmount? currentAmount? currency?
          deadline? now).error = none) ∧
    (∀ gid g, s.goals.find? (fun x => x.id == gid) = some g →
      g.jointAccountId = acct →
      (deleteGoal s gid uid).status = 200 ∧
      (deleteGoal s gid uid).db.goals = s.goals.eraseP (fun x => x.id == gid)) ∧
    (∀ name amount currency cycle nextBillingDate newId today now,
      acct ≠ "" → name ≠ "" → amount ≠ 0 → cycle ≠ "" →
      (createSubscription s uid acct name amount currency cycle
          nextBillingDate newId today now).status = 201 ∧
      (createSubscription s uid acct name amount currency cycle
          nextBillingDate newId today now).db.subscriptions.length
        = s.subscriptions.length + 1) ∧
    (∀ sid sub name? amount? currency? cycle? nextBillingDate? now,
      s.subscriptions.find? (fun x => x.id == sid) = some sub →
      sub.jointAccountId = acct →
      (updateSubscription s sid uid name? amount? currency? cycle?
          nextBillingDate? now).status = 200 ∧
      (updateSubscription s sid uid name? amount? currency? cycle?
          nextBillingDate? now).error = none) ∧
    (∀ sid sub, s.subscriptions.find? (fun x => x.id == sid) = some sub →
      sub.jointAccountId = acct →
      (deleteSubscription s sid uid).status = 200 ∧
      (deleteSubscription s sid uid).db.subscriptions
        = s.subscriptions.eraseP (fun x => x.id == sid)) := by
  refine ⟨?_, ?_, ?_, ?_, ?_, ?_, ?_, ?_, ?_⟩
  · intro userName amount currency ttype category date note newId today now h1 h2 h3 h4
    refine ⟨?_, ?_, ?_⟩ <;> simp [createTransaction, hmem, h1, h2, h3, h4]
  · intro tid t amount? currency? ttype? category? date? note? now hfind hacct
    refine ⟨?_, ?_, ?_⟩ <;> simp [updateTransaction, hfind, hacct, hmem]
  · intro tid t hfind hacct
    refine ⟨?_, ?_, ?_⟩ <;> simp [deleteTransaction, hfind, hacct, hmem]
  · intro name targetAmount currentAmount currency deadline newId now h1 h2 h3
    constructor <;> simp [createGoal, hmem, h1, h2, h3]
  · intro gid g name? targetAmount? currentAmount? currency? deadline? now hfind hacct
    constructor <;> simp [updateGoal, hfind, hacct, hmem]
  · intro gid g hfind hacct
    constructor <;> simp [deleteGoal, hfind, hacct, hmem]
  · intro name amount currency cycle nextBillingDate newId today now h1 h2 h3 h4
    constructor <;> simp [createSubscription, hmem, h1, h2, h3, h4]
  · intro sid sub name? amount? currency? cycle? nextBillingDate? now hfind hacct
    constructor <;> simp [updateSubscription, hfind, hacct, hmem]
  · intro sid sub hfind hacct
    constructor <;> simp [deleteSubscription, hfind, hacct, hmem]

/-- Witness for C8's amended theorem: the VIEWER-role member Carol (u3)
succeeds in updating transaction t1 of account a. -/
theorem member_any_role_mutations_succeed_witness :
    (updateTransaction viewerDb "t1" "u3" (some 50) none none none none none 5).status
        = 200 ∧
    (updateTransaction viewerDb "t1" "u3" (some 50) none none none none none 5).error
        = none ∧
    (updateTransaction viewerDb "t1" "u3" (some 50) none none none none
        none 5).db.transactions
      = updateFirst (fun x => x.id == "t1")
          (fun x => applyTxnUpdate x (some 50) none none none none none 5)
          viewerDb.transactions :=
  (member_any_role_mutations_succeed viewerDb "a" "u3" carolViewerRow
      (by decide)).2.1 "t1" foodTxn (some 50) none none none none none 5
    (by decide) (by decide)

theorem adminRows_append_nonadmin (l : List JointAccountMember)
    (x : JointAccountMember) (hx : x.role ≠ "ADMIN") (a : String) :
    adminRows (l ++ [x]) a = adminRows l a := by
  simp [adminRows, List.filter_append, List.filter_cons, hx]

theorem adminRows_append_other (l : List JointAccountMember)
    (x : JointAccountMember) (a : String) (hne : x.jointAccountId ≠ a) :
    adminRows (l ++ [x]) a = adminRows l a := by
  simp [adminRows, List.filter_append, List.filter_cons, hne]

theorem adminRows_append_admin (l : List JointAccountMember)
    (x : JointAccountMember) (a : String) (hja : x.jointAccountId = a)
    (hrole : x.role = "ADMIN") :
    adminRows (l ++ [x]) a = adminRows l a ++ [x] := by
  simp [adminRows, List.filter_append, List.filter_cons, hja, hrole]

theorem adminRows_nil_of_fresh (l : List JointAccountMember) (a : String)
    (h : ∀ m ∈ l, m.jointAccountId ≠ a) : adminRows l a = [] := by
  rw [adminRows, List.filter_eq_nil_iff]
  intro m hm
  simp [h m hm]

theorem adminRows_filter_ne (l : List JointAccountMember) (jid a : String)
    (h : a ≠ jid) :
    adminRows (l.filter (fun m => !(m.jointAccountId == jid))) a
      = adminRows l a := by
  induction l with
  | nil => rfl
  | cons x xs ih =>
    by_cases hx : x.jointAccountId = jid
    · have hxa : x.jointAccountId ≠ a := by rw [hx]; exact fun hc => h hc.symm
      simp only [adminRows, List.filter_cons] at ih ⊢
      simp [hx, hxa, ih, Ne.symm h]
    · simp only [adminRows, List.filter_cons] at ih ⊢
      by_cases hxa : x.jointAccountId = a
      · simp [List.filter_cons, hx, hxa, ih, h]
      · simp [List.filter_cons, hx, hxa, ih, h]

theorem mem_eraseP_id_ne (l : List JointAccount) (jid : String)
    (hnodup : (l.map (fun a => a.id)).Nodup) (x : JointAccount)
    (hx : x ∈ l.eraseP (fun a => a.id == jid)) : x ∈ l ∧ x.id ≠ jid := by
  induction l with
  | nil => simp at hx
  | cons a as ih =>
    rw [List.map_cons, List.nodup_cons] at hnodup
    by_cases hqa : a.id = jid
    · rw [List.eraseP_cons_of_pos (by simp [hqa])] at hx
      refine ⟨List.mem_cons_of_mem _ hx, ?_⟩
      intro hxid
      exact hnodup.1 (List.mem_map.mpr ⟨x, hx, hxid.trans hqa.symm⟩)
    · rw [List.eraseP_cons_of_neg (by simp [hqa])] at hx
      rcases List.mem_cons.mp hx with hxa | hxs
      · exact ⟨by simp [hxa], by rw [hxa]; exact hqa⟩
      · rcases ih hnodup.2 hxs with ⟨h1, h2⟩
        exact ⟨List.mem_cons_of_mem _ h1, h2⟩

theorem memberTarget_spec (s : Db) (jid mid : String) (m : JointAccountMember)
    (h : memberTarget s jid mid = some m) :
    m ∈ s.members ∧ m.jointAccountId = jid := by
  unfold memberTarget at h
  cases hf : s.members.find?
      (fun x => x.id == mid && x.jointAccountId == jid) with
  | some x =>
    rw [hf] at h
    cases h
    refine ⟨List.mem_of_find?_eq_some hf, ?_⟩
    have := List.find?_some hf
    simp only [Bool.and_eq_true, beq_iff_eq] at this
    exact this.2
  | none =>
    rw [hf] at h
    refine ⟨List.mem_of_find?_eq_some h, ?_⟩
    have := List.find?_some h
    simp only [Bool.and_eq_true, beq_iff_eq] at this
    exact this.2

/-- C2: every stored joint account has exactly one ADMIN membership row,
held by its `adminUserId`: account creation inserts exactly that row for
the creator; member removal (including a member leaving) never touches it
— in particular the admin removing themself is rejected with the distinct
400 "Admin cannot leave their own account..." message, not the 403 —
invite acceptance only ever adds MEMBER rows, and account deletion (which
removes the account document together with its membership rows) is the
only modelled operation that makes the ADMIN row disappear; no
role-change (demotion) route exists on the canonical joint-account
router.  All under unique document ids. -/
theorem single_admin_invariant (s : Db)
    (hnodupM : (s.members.map (fun m => m.id)).Nodup)
    (hnodupA : (s.jointAccounts.map (fun a => a.id)).Nodup)
    (hinv : singleAdminInv s) :
    (∀ uid name cur aid mid now, name ≠ "" →
      (∀ a ∈ s.jointAccounts, a.id ≠ aid) →
      (∀ m ∈ s.members, m.jointAccountId ≠ aid) →
      singleAdminInv (createJointAccount s uid name cur aid mid now).db ∧
      adminRows (createJointAccount s uid name cur aid mid now).db.members aid
        = [⟨mid, aid, uid, "ADMIN", now⟩]) ∧
    (∀ jid mid uid, singleAdminInv (removeMember s jid mid uid).db) ∧
    (∀ jid mid uid m acct,
      memberTarget s jid mid = some m →
      s.jointAccounts.find? (fun a => a.id == jid) = some acct →
      acct.adminUserId = uid → m.userId = uid →
      removeMember s jid mid uid = errRes s 400
        "Admin cannot leave their own account. Transfer ownership or delete the account instead.") ∧
    (∀ iid accept uid email memId now,
      singleAdminInv (respondInvite s iid accept uid email memId now).db) ∧
    (∀ jid uid, singleAdminInv (deleteJointAccount s jid uid).db) := by
  refine ⟨?_, ?_, ?_, ?_, ?_⟩
  · intro uid name cur aid mid now hname hfreshA hfreshM
    have hrows : adminRows (s.members ++ [⟨mid, aid, uid, "ADMIN", now⟩]) aid
        = [⟨mid, aid, uid, "ADMIN", now⟩] := by
      rw [adminRows_append_admin _ _ _ rfl rfl,
        adminRows_nil_of_fresh s.members aid hfreshM]
      simp
    constructor
    · intro a0 ha0
      simp only [createJointAccount, if_neg hname] at ha0 ⊢
      rcases List.mem_append.mp ha0 with hold | hnew
      · have heq := adminRows_append_other s.members
          ⟨mid, aid, uid, "ADMIN", now⟩ a0.id
          (fun hc => hfreshA a0 hold hc.symm)
        have := hinv a0 hold
        rw [← heq] at this
        exact this
      · have ha0' : a0 = ⟨aid, name, cur, uid, now, now⟩ := by simpa using hnew
        subst ha0'
        rw [hrows]
        refine ⟨rfl, ?_⟩
        intro x hx
        rw [List.eq_of_mem_singleton hx]
    · simpa [createJointAccount, if_neg hname] using hrows
  · intro jid mid uid
    unfold removeMember
    cases ht : memberTarget s jid mid with
    | none => exact hinv
    | some m =>
      cases ha : s.jointAccounts.find? (fun a => a.id == jid) with
      | none => exact hinv
      | some acct =>
        have hmm := memberTarget_spec s jid mid m ht
        have hacct_mem : acct ∈ s.jointAccounts := List.mem_of_find?_eq_some ha
        have hacct_id : acct.id = jid := by simpa using List.find?_some ha
        have hdel : m.userId ≠ acct.adminUserId →
            singleAdminInv { s with
              members := s.members.eraseP (fun x => x.id == m.id) } := by
          intro hne a0 ha0
          have hmna : (m.jointAccountId == a0.id && m.role == "ADMIN") = false := by
            by_contra hc
            rw [Bool.not_eq_false, Bool.and_eq_true, beq_iff_eq, beq_iff_eq] at hc
            have hjid : a0.id = jid := by rw [← hc.1, hmm.2]
            have ha0acct : a0 = acct :=
              List.inj_on_of_nodup_map hnodupA ha0 hacct_mem
                (by rw [hjid, hacct_id])
            have hmem_admin : m ∈ adminRows s.members acct.id := by
              apply List.mem_filter.mpr
              refine ⟨hmm.1, ?_⟩
              rw [Bool.and_eq_true, beq_iff_eq, beq_iff_eq]
              exact ⟨by rw [hmm.2, hacct_id], hc.2⟩
            exact hne ((hinv acct hacct_mem).2 m hmem_admin)
          have hrows : adminRows (s.members.eraseP (fun x => x.id == m.id)) a0.id
              = adminRows s.members a0.id := by
            unfold adminRows
            apply filter_eraseP
            intro x hx hqx
            have hxm : x = m :=
              List.inj_on_of_nodup_map hnodupM hx hmm.1 (by simpa using hqx)
            rw [hxm]
            exact hmna
          have := hinv a0 ha0
          rw [← hrows] at this
          exact this
        by_cases h1 : acct.adminUserId = uid
        · by_cases h2 : m.userId = uid
          · simp only [h1, h2]
            simp
            exact hinv
          · have := hdel (fun hc => h2 (hc.trans h1))
            simp only [h1]
            simpa [h2] using this
        · by_cases h2 : m.userId = uid
          · have := hdel (fun hc => h1 (hc.symm.trans h2))
            simpa [h1, h2] using this
          · simpa [h1, h2] using hinv
  · intro jid mid uid m acct ht ha hadm hself
    simp [removeMember, ht, ha, hadm, hself]
  · intro iid accept uid email memId now
    unfold respondInvite
    cases hfind : s.invites.find? (fun i => i.id == iid) with
    | none => exact hinv
    | some inv =>
      by_cases h1 : inv.invitedEmail = lowerString email
      case neg => simpa [h1, errRes] using hinv
      by_cases h2 : inv.status = "PENDING"
      case neg => simpa [h1, h2, errRes] using hinv
      by_cases h3 : inv.expiresAt < now
      case pos => simpa [h1, h2, h3, errRes] using hinv
      have hacc : singleAdminInv { s with
          invites := updateFirst (fun i => i.id == iid)
            (fun i => { i with status := "ACCEPTED" }) s.invites
          members := s.members ++
            [⟨memId, inv.jointAccountId, uid, "MEMBER", now⟩] } := by
        intro a0 ha0
        have heq := adminRows_append_nonadmin s.members
          ⟨memId, inv.jointAccountId, uid, "MEMBER", now⟩ (by simp) a0.id
        have := hinv a0 ha0
        rw [← heq] at this
        exact this
      by_cases hb : accept
      · simpa [h1, h2, h3, hb] using hacc
      · simpa [h1, h2, h3, hb] using hinv
  · intro jid uid
    unfold deleteJointAccount
    cases hadm : requireAdminCheck s jid uid with
    | some e => exact hinv
    | none =>
      intro a0 ha0
      simp only at ha0
      rcases mem_eraseP_id_ne s.jointAccounts jid hnodupA a0 ha0 with ⟨hmem0, hne0⟩
      have heq := adminRows_filter_ne s.members jid a0.id hne0
      have := hinv a0 hmem0
      rw [← heq] at this
      exact this

/-- Witness for C2 at the base store (unique ids, one ADMIN row per
account, held by the admin): the admin u1 attempting to remove themself
from their own account a is rejected with the distinct 400 message and
the store is unchanged, and a member-removal request preserves the
single-admin invariant. -/
theorem single_admin_invariant_witness :
    removeMember baseDb "a" "u1" "u1" = errRes baseDb 400
      "Admin cannot leave their own account. Transfer ownership or delete the account instead." ∧
    singleAdminInv (removeMember baseDb "a" "m2" "u1").db :=
  let h := single_admin_invariant baseDb (by decide) (by decide)
    (by unfold singleAdminInv; decide)
  ⟨h.2.2.1 "a" "u1" "u1" aliceAdminRow rentAccount (by decide) (by decide)
      (by decide) (by decide),
    h.2.1 "a" "m2" "u1"⟩
